import Mathlib

/-!
Verification development for the mcp-mermaid transport/session/dispatch core.

Shallow embedding of:
* `src/tools/index.ts` — the zod argument schema (`schemaSafeParse`);
* `src/server.ts` — the `tools/call` request handler installed by
  `setupToolHandlers` (`handleCallTool`), with the external collaborators
  (render engine, file system, clock, random source) passed in as explicit
  values;
* `src/services/sse.ts` — the session registry (`transports` record) and the
  routing of the express app built by `startSSEMcpServer`;
* `src/services/streamable.ts` — the routing of the express app built by
  `startHTTPStreamableServer`;
* `src/utils/httpServer.ts` — `handleCommonEndpoints` and the request flow of
  `createBaseHttpServer`;
* `src/utils/render.ts` — `ShutdownManager.cleanup`.

JavaScript machine details kept by the embedding: `x || d` falsiness on
strings (empty string falls back to the default), `String.prototype.substring`
clamping, `delete obj[k]` being a no-op on absent keys, and Node
`Buffer.toString("base64")` (standard alphabet, `=` padding).
-/

namespace McpMermaid

/-! ## JavaScript string helpers -/

/-- JS `m?.message || d`: an absent or empty (falsy) string falls back to `d`. -/
def jsStringOr (m : Option String) (d : String) : String :=
  match m with
  | some s => if s = "" then d else s
  | none => d

/-- JS `s.substring(start, stop)` for `start ≤ stop`: the characters from index
`start` (inclusive) to `stop` (exclusive), clamped to the string length. -/
def jsSubstring (s : String) (start stop : Nat) : String :=
  String.mk ((s.toList.drop start).take (stop - start))

/-- The `timestamp` computation of the `file` branch of `server.ts`:
`new Date().toISOString().replace(/[:.]/g, "-")` — every colon and dot of the
ISO string becomes a dash. -/
def replaceColonsDots (s : String) : String :=
  String.mk (s.toList.map (fun c => if c = ':' ∨ c = '.' then '-' else c))

/-- Node `path.resolve(cwd, filename)` for the inputs the `file` branch uses: a
relative filename resolved against an absolute working directory. -/
def pathResolve (cwd filename : String) : String :=
  cwd ++ "/" ++ filename

/-! ## Base64 (Node `Buffer.prototype.toString("base64")`)

Bytes are modelled as natural numbers below 256. -/

/-- The standard base64 alphabet. -/
def base64Alphabet : List Char :=
  ("ABCDEFGHIJKLMNOPQRSTUVWXYZabcdefghijklmnopqrstuvwxyz0123456789+/").toList

/-- Character of the standard base64 alphabet at a 6-bit index. -/
def b64Char (n : Nat) : Char :=
  base64Alphabet.getD n 'A'

/-- Node `Buffer.toString("base64")`: standard alphabet with `=` padding. -/
def base64Encode : List Nat → String
  | [] => ""
  | [a] =>
      String.mk [b64Char (a / 4), b64Char (a % 4 * 16)] ++ "=="
  | [a, b] =>
      String.mk [b64Char (a / 4), b64Char (a % 4 * 16 + b / 16),
        b64Char (b % 16 * 4)] ++ "="
  | a :: b :: c :: rest =>
      String.mk [b64Char (a / 4), b64Char (a % 4 * 16 + b / 16),
        b64Char (b % 16 * 4 + c / 64), b64Char (c % 64)] ++ base64Encode rest

/-! ## Request validator (`src/tools/index.ts`)

The zod schema: `mermaid` is a required non-empty string; `theme` is an
optional enum defaulting to `"default"`; `backgroundColor` is an optional
string defaulting to `"white"`; `outputType` is an optional enum defaulting to
`"base64"`. Raw arguments are the untyped key/value bag of the call: each of
the four recognized keys is either absent (`none`) or bound to a string.
Unknown keys are ignored by zod and not modelled. -/

/-- Raw tool-call arguments: the four keys the schema recognizes, each
possibly absent. -/
structure RawArgs where
  mermaid : Option String
  theme : Option String
  backgroundColor : Option String
  outputType : Option String
deriving DecidableEq, Repr

/-- The `theme` enum of the zod schema. -/
def themeEnum : List String := ["default", "base", "forest", "dark", "neutral"]

/-- The `outputType` enum of the zod schema. -/
def outputTypeEnum : List String :=
  ["base64", "svg", "mermaid", "file", "svg_url", "png_url"]

/-- The typed, defaulted parameters produced by a successful parse
(`result.data` of `schema.safeParse`). -/
structure ParsedArgs where
  mermaid : String
  theme : String
  backgroundColor : String
  outputType : String
deriving DecidableEq, Repr

/-- `schema.safeParse` of `src/tools/index.ts`: succeeds iff `mermaid` is a
present non-empty string and `theme` / `outputType`, when present, lie in
their enums; absent optional fields are defaulted. -/
def schemaSafeParse (args : RawArgs) : Option ParsedArgs :=
  match args.mermaid with
  | none => none
  | some m =>
    if m = "" then none
    else
      let theme := args.theme.getD "default"
      let outputType := args.outputType.getD "base64"
      if theme ∈ themeEnum ∧ outputType ∈ outputTypeEnum then
        some ⟨m, theme, args.backgroundColor.getD "white", outputType⟩
      else none

/-- Stand-in for the zod issue serialization `result.error.message`; the
concrete diagnostic text is produced by the external validation library and
its exact wording is not modelled. -/
def zodErrorText (_args : RawArgs) : String := "Validation error"

/-! ## Tool-call handler (`src/server.ts`, `setupToolHandlers`)

The external effects performed by one invocation of the `tools/call` handler
are passed in explicitly:

* `render` — the settled outcome of `await renderMermaid(...)`: either a
  fulfilled `RenderResult` (`id`, `svg`, optional `screenshot` buffer) or a
  rejection carrying the JS error's optional `message`;
* `nowIso` — `new Date().toISOString()`;
* `randomStr` — `Math.random().toString(36)`;
* `cwd` — `process.cwd()`;
* `write` — the outcome of `fs.writeFileSync(filePath, screenshot)`: success,
  a thrown `Error` with its message, or a thrown non-`Error` value.
-/

/-- A fulfilled result of the render collaborator. -/
structure RenderOk where
  id : String
  svg : String
  screenshot : Option (List Nat)
deriving DecidableEq, Repr

/-- The settled outcome of the render collaborator call. -/
inductive RenderOutcome
  | ok (r : RenderOk)
  | err (message : Option String)
deriving DecidableEq, Repr

/-- The outcome of the `fs.writeFileSync` call of the `file` branch. -/
inductive WriteOutcome
  | ok
  | errWithMessage (m : String)
  | errNonError
deriving DecidableEq, Repr

/-- External-world inputs consumed by one handler invocation. -/
structure Env where
  render : RenderOutcome
  nowIso : String
  randomStr : String
  cwd : String
  write : WriteOutcome
deriving DecidableEq, Repr

/-- MCP error codes used by `server.ts` (`ErrorCode` of the SDK). -/
inductive ErrorCode
  | invalidParams
  | methodNotFound
  | internalError
deriving DecidableEq, Repr

/-- `McpError`: the structured RPC error thrown by the handler. -/
structure McpError where
  code : ErrorCode
  message : String
deriving DecidableEq, Repr

/-- One item of the response `content` array. The `image` payload's `data` is
optional because the source writes `screenshot?.toString("base64")`. -/
inductive ContentItem
  | text (s : String)
  | image (data : Option String) (mimeType : String)
deriving DecidableEq, Repr

/-- A successful `tools/call` response. -/
structure CallToolResponse where
  content : List ContentItem
deriving DecidableEq, Repr

/-- The registered tool's name (`tool.name` of `src/tools/index.ts`). -/
def toolName : String := "generate_mermaid_diagram"

/-- The `tools/call` request handler installed by `setupToolHandlers` in
`src/server.ts`, transcribed branch by branch:

* unknown tool name → `McpError(MethodNotFound, ...)`;
* `schema.safeParse` failure → `McpError(InvalidParams, ...)`;
* `renderMermaid` is awaited before the output branch; its rejection reaches
  the surrounding catch, which wraps any non-`McpError` as
  `McpError(InternalError, "Failed to generate mermaid: " + (message ||
  "Unknown error."))` and rethrows `McpError`s unchanged;
* the handler then destructures the *raw* arguments (not `result.data`), with
  the destructuring default `outputType = "png"`, and branches on
  `"mermaid"`, `"svg"`, `"file"`, falling through to the base64 image payload
  for every other value. -/
def handleCallTool (name : String) (args? : Option RawArgs) (env : Env) :
    Except McpError CallToolResponse :=
  if name = toolName then
    let args := args?.getD ⟨none, none, none, none⟩
    match schemaSafeParse args with
    | none =>
        .error ⟨.invalidParams, "Invalid parameters: " ++ zodErrorText args⟩
    | some _ =>
        let mermaid := args.mermaid.getD ""
        let outputType := args.outputType.getD "png"
        match env.render with
        | .err m =>
            .error ⟨.internalError,
              "Failed to generate mermaid: " ++ jsStringOr m "Unknown error."⟩
        | .ok r =>
            if outputType = "mermaid" then
              .ok ⟨[.text mermaid]⟩
            else if outputType = "svg" then
              .ok ⟨[.text r.svg]⟩
            else if outputType = "file" then
              match r.screenshot with
              | none =>
                  .error ⟨.internalError,
                    "Failed to generate screenshot for file output."⟩
              | some _shot =>
                  let timestamp := replaceColonsDots env.nowIso
                  let randomSuffix := jsSubstring env.randomStr 2 8
                  let filename :=
                    "mermaid-" ++ timestamp ++ "-" ++ randomSuffix ++ ".png"
                  let filePath := pathResolve env.cwd filename
                  match env.write with
                  | .ok =>
                      .ok ⟨[.text ("Mermaid diagram saved to file: " ++ filePath)]⟩
                  | .errWithMessage m =>
                      .error ⟨.internalError, "Failed to save file: " ++ m⟩
                  | .errNonError =>
                      .error ⟨.internalError,
                        "Failed to save file: Unknown file error"⟩
            else
              .ok ⟨[.image (r.screenshot.map base64Encode) "image/png"]⟩
  else
    .error ⟨.methodNotFound, "Unknown tool: " ++ name ++ "."⟩

/-! ## Session registry and routing of the SSE binding (`src/services/sse.ts`)

`startSSEMcpServer` keeps a module-scoped record
`transports: Record<string, SSEServerTransport>`. The GET endpoint builds a
transport bound to the connection's response, stores it under its
`sessionId`, and assigns `transport.onclose` to delete that same key; the
POST `/messages` handler answers 400 when the `sessionId` query parameter is
falsy and 404 when no entry is found. A JS string-keyed record is a partial
map from strings. -/

/-- The per-connection `SSEServerTransport`: its opaque session id and the
response channel it is bound to (modelled as a channel number, so two
transports with the same id can still be distinguished). -/
structure SSETransport where
  sessionId : String
  channel : Nat
deriving DecidableEq, Repr

/-- The `transports` record: a string-keyed partial map. -/
def Registry : Type := String → Option SSETransport

/-- The initial, empty `transports` record. -/
def Registry.emptyR : Registry := fun _ => none

/-- JS `transports[id] = t`. -/
def Registry.insert (r : Registry) (id : String) (t : SSETransport) : Registry :=
  fun k => if k = id then some t else r k

/-- JS `delete transports[id]` (a no-op on an absent key). -/
def Registry.remove (r : Registry) (id : String) : Registry :=
  fun k => if k = id then none else r k

/-- JS `transports[id]` on the read side. -/
def Registry.lookup (r : Registry) (id : String) : Option SSETransport := r id

/-- Effect of the GET endpoint handler on the record:
`transports[transport.sessionId] = transport`. -/
def sseConnect (r : Registry) (t : SSETransport) : Registry :=
  r.insert t.sessionId t

/-- Effect of the close handler assigned at creation:
`transport.onclose = () => delete transports[transport.sessionId]`. -/
def sseOnClose (r : Registry) (t : SSETransport) : Registry :=
  r.remove t.sessionId

/-- Outcome of the POST `/messages` handler. -/
inductive PostOutcome
  | missingSession400
  | notFound404
  | handledBy (t : SSETransport)
deriving DecidableEq, Repr

/-- The POST `/messages` handler of `startSSEMcpServer`: a falsy `sessionId`
query parameter (absent or empty string) answers 400; an id with no live
entry answers 404; otherwise the request is forwarded to that session's
transport. -/
def ssePostMessages (r : Registry) (sessionId? : Option String) : PostOutcome :=
  match sessionId? with
  | none => .missingSession400
  | some sid =>
      if sid = "" then .missingSession400
      else
        match r.lookup sid with
        | none => .notFound404
        | some t => .handledBy t

/-! ## HTTP routing (`src/utils/httpServer.ts`, `src/services/sse.ts`,
`src/services/streamable.ts`) -/

/-- An incoming HTTP request as `handleCommonEndpoints` sees it: its method
and its (possibly absent) URL. -/
structure HttpRequest where
  method : String
  url : Option String
deriving DecidableEq, Repr

/-- Result of `handleCommonEndpoints`: either a finished response, or the
request is left for the transport-specific handler. -/
inductive CommonResult
  | handled (status : Nat) (body : String)
  | notHandled
deriving DecidableEq, Repr

/-- `handleCommonEndpoints` of `src/utils/httpServer.ts`: a request without a
URL is answered 400 "No URL"; `GET /health` is answered 200 "OK"; `GET /ping`
is answered 200 "pong"; anything else is left unhandled. -/
def handleCommonEndpoints (req : HttpRequest) : CommonResult :=
  match req.url with
  | none => .handled 400 "No URL"
  | some u =>
      if req.method = "GET" ∧ u = "/health" then .handled 200 "OK"
      else if req.method = "GET" ∧ u = "/ping" then .handled 200 "pong"
      else .notHandled

/-- Where `createBaseHttpServer` sends a request. -/
inductive BaseRouteResult
  | response (status : Nat) (body : String)
  | specificHandler
deriving DecidableEq, Repr

/-- The request flow of `createBaseHttpServer`: after setting CORS headers,
`OPTIONS` is short-circuited to 204, then `handleCommonEndpoints` runs, and
only unhandled requests reach the transport-specific handler. -/
def baseServerRoute (req : HttpRequest) : BaseRouteResult :=
  if req.method = "OPTIONS" then .response 204 ""
  else
    match handleCommonEndpoints req with
    | .handled s b => .response s b
    | .notHandled => .specificHandler

/-- Routes of the express app built by `startSSEMcpServer`.
`autoOptions allow` is express's automatic response to an `OPTIONS` request
on a path that has registered routes: status 200 with an `Allow` header
listing the methods the path supports. -/
inductive SseRouteTarget
  | getEndpoint
  | postMessages
  | autoOptions (allow : String)
  | default404
deriving DecidableEq, Repr

/-- Routing of the SSE express app: only `GET <endpoint>` and
`POST /messages` are registered. An `OPTIONS` request on a routed path is
answered by express's automatic OPTIONS handling — 200 with an `Allow`
header (`GET,HEAD` for the endpoint's GET route, `POST` for `/messages`) —
not a 204 short-circuit; everything else falls through to express's default
404 handler. No CORS middleware and no health/ping routes are installed in
this binding. -/
def sseAppRoute (endpoint method path : String) : SseRouteTarget :=
  if method = "GET" ∧ path = endpoint then .getEndpoint
  else if method = "POST" ∧ path = "/messages" then .postMessages
  else if method = "OPTIONS" ∧ path = endpoint then .autoOptions "GET,HEAD"
  else if method = "OPTIONS" ∧ path = "/messages" then .autoOptions "POST"
  else .default404

/-- Routes of the express app built by `startHTTPStreamableServer`. -/
inductive StreamRouteTarget
  | corsOptions204
  | postEndpoint
  | get405
  | delete405
  | default404
deriving DecidableEq, Repr

/-- Routing of the streamable express app: the `cors()` middleware answers
preflight `OPTIONS` requests with 204; `POST <endpoint>` reaches the
transport handler; `GET <endpoint>` and `DELETE <endpoint>` answer 405;
everything else falls through to express's default 404 handler. No
health/ping routes are installed in this binding. -/
def streamableAppRoute (endpoint method path : String) : StreamRouteTarget :=
  if method = "OPTIONS" then .corsOptions204
  else if method = "POST" ∧ path = endpoint then .postEndpoint
  else if method = "GET" ∧ path = endpoint then .get405
  else if method = "DELETE" ∧ path = endpoint then .delete405
  else .default404

/-! ## Shutdown coordinator (`ShutdownManager` of `src/utils/render.ts`)

Cooperative-event-loop model of `ShutdownManager.cleanup`:

* a registered handler's behaviour when invoked is one of: it completes, it
  rejects with a message, or it hangs past the fixed 3000 ms timeout;
* `Promise.race([handler(), timeout-reject])` settles for every one of the
  three behaviours — a hanging handler loses the race to the
  `new Error("Cleanup timeout")` rejection;
* the surrounding `try/catch` logs a rejection and treats the handler as
  completed, so every mapped promise resolves;
* `Promise.all` over resolved promises resolves, and the process exits with
  status 0 — unless `isShuttingDown` was already set, in which case the call
  exits immediately with status 1 without touching the handlers. -/

/-- Behaviour of one registered cleanup handler when invoked. -/
inductive HandlerOutcome
  | completes
  | throws (msg : String)
  | hangs
deriving DecidableEq, Repr

/-- How one wrapped handler settles after `Promise.race` with the 3000 ms
timeout and the surrounding `try/catch`. -/
inductive SettledOutcome
  | ok
  | caughtError (e : String)
deriving DecidableEq, Repr

/-- `Promise.race([handler(), timeout])` followed by the `catch` that logs
the rejection: every behaviour settles. -/
def wrapHandler : HandlerOutcome → SettledOutcome
  | .completes => .ok
  | .throws m => .caughtError m
  | .hangs => .caughtError "Cleanup timeout"

/-- Observable result of one `cleanup()` invocation: how each attempted
handler settled, and the status `process.exit` is called with. -/
structure CleanupRun where
  settled : List SettledOutcome
  exitCode : Nat
deriving DecidableEq, Repr

/-- `ShutdownManager.cleanup`: when `isShuttingDown` is already set the
process exits immediately with status 1 and no handler is invoked; otherwise
every registered handler is invoked (concurrently, each raced against the
3000 ms timeout), rejections are logged and swallowed, and after
`Promise.all` settles the process exits with status 0. -/
def shutdownCleanup (isShuttingDown : Bool) (handlers : List HandlerOutcome) :
    CleanupRun :=
  if isShuttingDown then ⟨[], 1⟩
  else ⟨handlers.map wrapHandler, 0⟩

/-! ## Concrete inputs used by counterexamples and witnesses -/

/-- Raw arguments of the end-to-end scenario, requesting the hosted raster
URL output (`png_url`). -/
def c1Args : RawArgs := ⟨some "flowchart TD\nA-->B", none, none, some "png_url"⟩

/-- Environment for the `png_url` call: the render collaborator fulfills with
markup and a screenshot buffer. -/
def c1Env : Env :=
  ⟨.ok ⟨"mermaid-1", "<svg>diagram</svg>", some [1, 2, 3]⟩,
    "2024-01-01T00:00:00.000Z", "0.q2w3e4r5t6", "/work", .ok⟩

/-- A valid request (svg output) used to exercise a render failure. -/
def c2Args : RawArgs := ⟨some "flowchart TD\nA-->B", none, none, some "svg"⟩

/-- Environment in which the render collaborator rejects without a message. -/
def c2Env : Env :=
  ⟨.err none, "2024-01-01T00:00:00.000Z", "0.q2w3e4r5t6", "/work", .ok⟩

/-- Environment in which the render collaborator rejects with a message. -/
def c2EnvMsg : Env :=
  ⟨.err (some "Diagram syntax error"), "2024-01-01T00:00:00.000Z",
    "0.q2w3e4r5t6", "/work", .ok⟩

/-- A benign environment for validator-only statements. -/
def plainEnv : Env :=
  ⟨.ok ⟨"mermaid-1", "<svg>diagram</svg>", none⟩,
    "2024-01-01T00:00:00.000Z", "0.q2w3e4r5t6", "/work", .ok⟩

/-- A valid request with the explicit `base64` output kind. -/
def c4Args : RawArgs := ⟨some "flowchart TD\nA-->B", none, none, some "base64"⟩

/-- Environment in which the render collaborator fulfills without a
screenshot buffer. -/
def c4EnvNoShot : Env :=
  ⟨.ok ⟨"mermaid-1", "<svg>diagram</svg>", none⟩,
    "2024-01-01T00:00:00.000Z", "0.q2w3e4r5t6", "/work", .ok⟩

/-- Environment in which the render collaborator fulfills with a screenshot
buffer. -/
def c4EnvShot : Env :=
  ⟨.ok ⟨"mermaid-1", "<svg>diagram</svg>", some [1, 2, 3]⟩,
    "2024-01-01T00:00:00.000Z", "0.q2w3e4r5t6", "/work", .ok⟩

/-- A valid request with the `file` output kind. -/
def c5Args : RawArgs := ⟨some "flowchart TD\nA-->B", none, none, some "file"⟩

/-- Environment for a successful `file` save: screenshot present, write
succeeds. -/
def c5Env : Env :=
  ⟨.ok ⟨"mermaid-1", "<svg>diagram</svg>", some [1, 2, 3]⟩,
    "2024-01-01T00:00:00.000Z", "0.q2w3e4r5t6", "/work", .ok⟩

/-- Environment for a `file` request whose render result has no screenshot. -/
def c5EnvNoShot : Env :=
  ⟨.ok ⟨"mermaid-1", "<svg>diagram</svg>", none⟩,
    "2024-01-01T00:00:00.000Z", "0.q2w3e4r5t6", "/work", .ok⟩

/-- Environment for a `file` request whose disk write throws. -/
def c5EnvBadWrite : Env :=
  ⟨.ok ⟨"mermaid-1", "<svg>diagram</svg>", some [1, 2, 3]⟩,
    "2024-01-01T00:00:00.000Z", "0.q2w3e4r5t6", "/work",
    .errWithMessage "EACCES: permission denied"⟩

/-- A valid request with the `mermaid` (source echo) output kind. -/
def c6Args : RawArgs := ⟨some "flowchart TD\nA-->B", none, none, some "mermaid"⟩

/-- Environment in which the render collaborator fulfills. -/
def c6EnvOk : Env :=
  ⟨.ok ⟨"mermaid-1", "<svg>diagram</svg>", some [1, 2, 3]⟩,
    "2024-01-01T00:00:00.000Z", "0.q2w3e4r5t6", "/work", .ok⟩

/-- Environment in which the render collaborator rejects (malformed
diagram). -/
def c6EnvBad : Env :=
  ⟨.err (some "Parse error on line 2"), "2024-01-01T00:00:00.000Z",
    "0.q2w3e4r5t6", "/work", .ok⟩

/-! ## C1 — hosted URL output kinds -/

/-- C1 (divergence witness): for the valid request
`{mermaid: "flowchart TD\nA-->B", outputType: "png_url"}` the handler of
`server.ts` has no `png_url` (or `svg_url`) branch at all: the request falls
through to the final base64 branch and the response is an image payload
carrying the base64-encoded screenshot — not a text payload with a
`https://mermaid.ink/img/pako:...` URL, and the URL-encoding collaborator
`createMermaidInkUrl` is never consulted. This contradicts the repository's
own schema description and tests, which require a mermaid.ink URL. -/
theorem c1_png_url_falls_through_to_image :
    handleCallTool toolName (some c1Args) c1Env =
      Except.ok ⟨[ContentItem.image (some "AQID") "image/png"]⟩ ∧
    (some "AQID" = (some [1, 2, 3]).map base64Encode) := by
  exact ⟨rfl, rfl⟩

/-! ## C2 — surfacing render-collaborator failures -/

/-- C2 (counterexample): when the render collaborator rejects without a
message, the handler's error message is
`"Failed to generate mermaid: Unknown error."` — not the bare
`"Unknown error"` the claim states — and its code is the generic
`InternalError`. -/
theorem c2_counterexample :
    handleCallTool toolName (some c2Args) c2Env =
      Except.error ⟨ErrorCode.internalError,
        "Failed to generate mermaid: Unknown error."⟩ ∧
    "Failed to generate mermaid: Unknown error." ≠ "Unknown error" := by
  exact ⟨rfl, by decide⟩

/-- C2 (amended): for every valid request on which the render collaborator
rejects, the handler surfaces the failure as an `McpError` with code
`InternalError` and message `"Failed to generate mermaid: "` followed by the
collaborator's message when present and non-empty, with `"Unknown error."`
substituted otherwise. -/
theorem c2_render_failure_wrapped (args : RawArgs) (env : Env)
    (m : Option String) (hp : (schemaSafeParse args).isSome)
    (hr : env.render = .err m) :
    handleCallTool toolName (some args) env =
      Except.error ⟨ErrorCode.internalError,
        "Failed to generate mermaid: " ++ jsStringOr m "Unknown error."⟩ := by
  unfold handleCallTool
  rw [if_pos rfl]
  obtain ⟨p, hps⟩ := Option.isSome_iff_exists.mp hp
  simp only [Option.getD_some, hps, hr]

/-- C2 (witness): the amended theorem applied to the concrete request whose
render fails with message `"Diagram syntax error"`. -/
theorem c2_render_failure_wrapped_witness :
    handleCallTool toolName (some c2Args) c2EnvMsg =
      Except.error ⟨ErrorCode.internalError,
        "Failed to generate mermaid: Diagram syntax error"⟩ := by
  have h := c2_render_failure_wrapped c2Args c2EnvMsg
    (some "Diagram syntax error") (by decide) rfl
  simpa [jsStringOr] using h

/-! ## C3 — the normalize contract -/

/-- C3: `schema.safeParse` succeeds exactly when `mermaid` is present and
non-empty and `theme` / `outputType`, when present, lie in their enums; a
successful parse defaults omitted `theme`, `backgroundColor` and
`outputType` to `"default"`, `"white"` and `"base64"`; and every parse
failure makes the handler reject with an `InvalidParams` error. -/
theorem c3_normalize_contract (args : RawArgs) :
    ((schemaSafeParse args).isSome ↔
      ((∃ m, args.mermaid = some m ∧ m ≠ "") ∧
        (∀ t, args.theme = some t → t ∈ themeEnum) ∧
        (∀ o, args.outputType = some o → o ∈ outputTypeEnum))) ∧
    (∀ p, schemaSafeParse args = some p →
        ((args.theme = none → p.theme = "default") ∧
          (args.backgroundColor = none → p.backgroundColor = "white") ∧
          (args.outputType = none → p.outputType = "base64"))) ∧
    (schemaSafeParse args = none → ∀ env,
        handleCallTool toolName (some args) env =
          Except.error ⟨ErrorCode.invalidParams,
            "Invalid parameters: " ++ zodErrorText args⟩) := by
  obtain ⟨m?, t?, b?, o?⟩ := args
  refine ⟨?_, ?_, ?_⟩
  · cases m? with
    | none => simp [schemaSafeParse]
    | some m =>
      by_cases hm : m = ""
      · subst hm
        simp [schemaSafeParse]
      · cases t? with
        | none =>
          cases o? with
          | none => simp [schemaSafeParse, hm]; decide
          | some o =>
            by_cases ho : o ∈ outputTypeEnum <;>
              simp_all [schemaSafeParse, hm, ho] <;> decide
        | some t =>
          by_cases ht : t ∈ themeEnum
          · cases o? with
            | none => simp_all [schemaSafeParse, hm, ht]; decide
            | some o =>
              by_cases ho : o ∈ outputTypeEnum <;>
                simp_all [schemaSafeParse, hm, ht, ho]
          · simp_all [schemaSafeParse, hm, ht]
  · intro p hp
    cases m? with
    | none => simp [schemaSafeParse] at hp
    | some m =>
      by_cases hm : m = ""
      · subst hm; simp [schemaSafeParse] at hp
      · refine ⟨?_, ?_, ?_⟩ <;> intro h <;> subst h <;>
          simp [schemaSafeParse, hm] at hp <;>
          simp_all [← hp.2]
  · intro hfail env
    unfold handleCallTool
    rw [if_pos rfl]
    simp only [Option.getD_some, hfail]

/-- C3 (witness): a bare `{mermaid: ...}` call parses with all three
defaults, and the empty-string call is rejected by the handler with
`InvalidParams`. -/
theorem c3_normalize_contract_witness :
    (schemaSafeParse ⟨some "flowchart TD\nA-->B", none, none, none⟩).isSome ∧
    handleCallTool toolName (some ⟨some "", none, none, none⟩) plainEnv =
      Except.error ⟨ErrorCode.invalidParams,
        "Invalid parameters: " ++ zodErrorText ⟨some "", none, none, none⟩⟩ := by
  refine ⟨?_, ?_⟩
  · refine (c3_normalize_contract _).1.mpr ⟨⟨"flowchart TD\nA-->B", rfl, ?_⟩, ?_, ?_⟩
    · decide
    · intro t h
      exact nomatch h
    · intro o h
      exact nomatch h
  · exact (c3_normalize_contract _).2.2 (by decide) plainEnv

/-! ## Helper lemma on substring lengths -/

/-- Length of a JS substring: clamped window size. -/
theorem length_jsSubstring (s : String) (a b : Nat) :
    (jsSubstring s a b).length = min (b - a) (s.length - a) := by
  show ((s.toList.drop a).take (b - a)).length = _
  rw [List.length_take, List.length_drop]
  rfl

/-! ## C4 — the base64 image output -/

/-- C4 (counterexample): a valid `base64` request whose render result has no
screenshot buffer does not fail — `rasterBytes` is not actually required on
this branch; the handler succeeds with an image payload whose `data` is
absent (the source writes `screenshot?.toString("base64")`). -/
theorem c4_counterexample :
    handleCallTool toolName (some c4Args) c4EnvNoShot =
      Except.ok ⟨[ContentItem.image none "image/png"]⟩ := rfl

/-- C4 (amended): for every valid request with output kind `base64`
(explicitly, or by omission of `outputType`), a fulfilled render yields an
image payload with MIME type `image/png` whose `data` is the
base64-encoding of the screenshot bytes when present, and is absent when
the render result carries no screenshot. -/
theorem c4_base64_image_payload (args : RawArgs) (env : Env) (r : RenderOk)
    (hp : (schemaSafeParse args).isSome)
    (ho : args.outputType = some "base64" ∨ args.outputType = none)
    (hr : env.render = .ok r) :
    handleCallTool toolName (some args) env =
      Except.ok ⟨[ContentItem.image (r.screenshot.map base64Encode) "image/png"]⟩ := by
  unfold handleCallTool
  rw [if_pos rfl]
  obtain ⟨p, hps⟩ := Option.isSome_iff_exists.mp hp
  rcases ho with ho | ho <;>
    simp only [Option.getD_some, hps, hr, ho, Option.getD_none] <;> rfl

/-- C4 (witness): the amended theorem applied to the concrete `base64`
request with screenshot bytes `[1, 2, 3]`, whose base64 encoding is
`"AQID"`. -/
theorem c4_base64_image_payload_witness :
    handleCallTool toolName (some c4Args) c4EnvShot =
      Except.ok ⟨[ContentItem.image (some "AQID") "image/png"]⟩ := by
  have h := c4_base64_image_payload c4Args c4EnvShot
    ⟨"mermaid-1", "<svg>diagram</svg>", some [1, 2, 3]⟩ (by decide)
    (Or.inl rfl) rfl
  simpa [base64Encode, b64Char, base64Alphabet] using h

/-! ## C5 — the saved-file output -/

/-- C5: for every valid `file` request, a render result without screenshot
bytes fails with `InternalError` and message
`"Failed to generate screenshot for file output."`; with screenshot bytes,
the file name is `mermaid-<ISO timestamp with colons and dots replaced by
dashes>-<substring(2,8) of the random source>.png` resolved against the
working directory, a successful write returns the confirmation text carrying
that absolute path, a throwing write fails with `InternalError` and message
prefixed `"Failed to save file: "`, and the random suffix has exactly 6
characters whenever the random source has at least 8. -/
theorem c5_saved_file (args : RawArgs) (env : Env) (r : RenderOk)
    (hp : (schemaSafeParse args).isSome)
    (ho : args.outputType = some "file")
    (hr : env.render = .ok r) :
    (r.screenshot = none →
      handleCallTool toolName (some args) env =
        Except.error ⟨ErrorCode.internalError,
          "Failed to generate screenshot for file output."⟩) ∧
    (∀ shot, r.screenshot = some shot →
      ((env.write = .ok →
        handleCallTool toolName (some args) env =
          Except.ok ⟨[ContentItem.text ("Mermaid diagram saved to file: " ++
            pathResolve env.cwd ("mermaid-" ++ replaceColonsDots env.nowIso ++
              "-" ++ jsSubstring env.randomStr 2 8 ++ ".png"))]⟩) ∧
      (∀ m, env.write = .errWithMessage m →
        handleCallTool toolName (some args) env =
          Except.error ⟨ErrorCode.internalError,
            "Failed to save file: " ++ m⟩))) ∧
    (8 ≤ env.randomStr.length → (jsSubstring env.randomStr 2 8).length = 6) := by
  obtain ⟨p, hps⟩ := Option.isSome_iff_exists.mp hp
  refine ⟨?_, ?_, ?_⟩
  · intro hshot
    unfold handleCallTool
    rw [if_pos rfl]
    simp only [Option.getD_some, hps, hr, ho, hshot]
    rfl
  · intro shot hshot
    constructor
    · intro hw
      unfold handleCallTool
      rw [if_pos rfl]
      simp only [Option.getD_some, hps, hr, ho, hshot, hw]
      rfl
    · intro m hw
      unfold handleCallTool
      rw [if_pos rfl]
      simp only [Option.getD_some, hps, hr, ho, hshot, hw]
      rfl
  · intro hlen
    rw [length_jsSubstring]
    omega

/-- C5 (witness): the saved-file theorem applied to three concrete
environments — missing screenshot, successful write, and a write that throws
`EACCES` — with the filename and suffix evaluated concretely. -/
theorem c5_saved_file_witness :
    (handleCallTool toolName (some c5Args) c5EnvNoShot =
      Except.error ⟨ErrorCode.internalError,
        "Failed to generate screenshot for file output."⟩) ∧
    (handleCallTool toolName (some c5Args) c5Env =
      Except.ok ⟨[ContentItem.text
        ("Mermaid diagram saved to file: /work/mermaid-2024-01-01T00-00-00-000Z-q2w3e4.png")]⟩) ∧
    (handleCallTool toolName (some c5Args) c5EnvBadWrite =
      Except.error ⟨ErrorCode.internalError,
        "Failed to save file: EACCES: permission denied"⟩) ∧
    (jsSubstring "0.q2w3e4r5t6" 2 8).length = 6 := by
  refine ⟨?_, ?_, ?_, ?_⟩
  · exact (c5_saved_file c5Args c5EnvNoShot _ (by decide) rfl rfl).1 rfl
  · have h := ((c5_saved_file c5Args c5Env
      ⟨"mermaid-1", "<svg>diagram</svg>", some [1, 2, 3]⟩ (by decide) rfl rfl).2.1
      [1, 2, 3] rfl).1 rfl
    exact h.trans (congrArg Except.ok (by decide))
  · exact ((c5_saved_file c5Args c5EnvBadWrite
      ⟨"mermaid-1", "<svg>diagram</svg>", some [1, 2, 3]⟩ (by decide) rfl rfl).2.1
      [1, 2, 3] rfl).2 "EACCES: permission denied" rfl
  · exact (c5_saved_file c5Args c5Env
      ⟨"mermaid-1", "<svg>diagram</svg>", some [1, 2, 3]⟩ (by decide) rfl rfl).2.2
      (by decide)

/-! ## C6 — the source-echo output -/

/-- C6: for every valid request with the source-echo output kind
(`mermaid`), the render collaborator's outcome is consulted before the
output branch: a fulfilled render echoes the original input code verbatim as
text, and a rejected render (malformed diagram) makes the call fail with the
wrapped render error instead of echoing the source. -/
theorem c6_source_text_requires_render (args : RawArgs) (env : Env)
    (code : String) (hm : args.mermaid = some code)
    (hp : (schemaSafeParse args).isSome)
    (ho : args.outputType = some "mermaid") :
    (∀ r, env.render = .ok r →
      handleCallTool toolName (some args) env =
        Except.ok ⟨[ContentItem.text code]⟩) ∧
    (∀ m, env.render = .err m →
      handleCallTool toolName (some args) env =
        Except.error ⟨ErrorCode.internalError,
          "Failed to generate mermaid: " ++ jsStringOr m "Unknown error."⟩) := by
  obtain ⟨p, hps⟩ := Option.isSome_iff_exists.mp hp
  constructor
  · intro r hr
    unfold handleCallTool
    rw [if_pos rfl]
    simp only [Option.getD_some, hps, hr, ho, hm]
    rfl
  · intro m hr
    unfold handleCallTool
    rw [if_pos rfl]
    simp only [Option.getD_some, hps, hr]

/-- C6 (witness): the theorem applied to the concrete source-echo request,
once with a fulfilled render (the input code comes back verbatim) and once
with a rejected render (the call fails with the wrapped message instead of
echoing). -/
theorem c6_source_text_requires_render_witness :
    (handleCallTool toolName (some c6Args) c6EnvOk =
      Except.ok ⟨[ContentItem.text "flowchart TD\nA-->B"]⟩) ∧
    (handleCallTool toolName (some c6Args) c6EnvBad =
      Except.error ⟨ErrorCode.internalError,
        "Failed to generate mermaid: Parse error on line 2"⟩) := by
  constructor
  · exact (c6_source_text_requires_render c6Args c6EnvOk _ rfl (by decide) rfl).1
      _ rfl
  · have h := (c6_source_text_requires_render c6Args c6EnvBad _ rfl (by decide)
      rfl).2 (some "Parse error on line 2") rfl
    simpa [jsStringOr] using h

/-! ## C7 — session registry lifecycle -/

/-- C7: for the `transports` record of the SSE binding — after the push
endpoint stores a freshly created transport, looking its id up returns that
same transport; after the close handler fires, the lookup reports not-found
and the message endpoint answers 404; firing the close-triggered removal a
second time changes nothing; and removing an id with no live entry is a
no-op on the whole record. -/
theorem c7_registry_lifecycle (r : Registry) (t : SSETransport)
    (hs : t.sessionId ≠ "") :
    ((sseConnect r t).lookup t.sessionId = some t) ∧
    ((sseOnClose (sseConnect r t) t).lookup t.sessionId = none) ∧
    (ssePostMessages (sseOnClose (sseConnect r t) t) (some t.sessionId) =
      .notFound404) ∧
    (sseOnClose (sseOnClose (sseConnect r t) t) t =
      sseOnClose (sseConnect r t) t) ∧
    (∀ id, r.lookup id = none → Registry.remove r id = r) := by
  refine ⟨?_, ?_, ?_, ?_, ?_⟩
  · simp [sseConnect, Registry.insert, Registry.lookup]
  · simp [sseConnect, sseOnClose, Registry.insert, Registry.remove,
      Registry.lookup]
  · simp [ssePostMessages, hs, sseConnect, sseOnClose, Registry.insert,
      Registry.remove, Registry.lookup]
  · funext k
    by_cases hk : k = t.sessionId <;> simp [sseOnClose, Registry.remove, hk]
  · intro id hid
    funext k
    by_cases hk : k = id
    · subst hk
      simpa [Registry.remove] using hid.symm
    · simp [Registry.remove, hk]

/-- C7 (witness): the lifecycle theorem applied to the empty record and a
concrete transport with session id `"sess-1"`. -/
theorem c7_registry_lifecycle_witness :
    ((sseConnect Registry.emptyR ⟨"sess-1", 0⟩).lookup "sess-1" =
      some ⟨"sess-1", 0⟩) ∧
    ((sseOnClose (sseConnect Registry.emptyR ⟨"sess-1", 0⟩)
      ⟨"sess-1", 0⟩).lookup "sess-1" = none) ∧
    (ssePostMessages (sseOnClose (sseConnect Registry.emptyR ⟨"sess-1", 0⟩)
      ⟨"sess-1", 0⟩) (some "sess-1") = .notFound404) := by
  have h := c7_registry_lifecycle Registry.emptyR ⟨"sess-1", 0⟩ (by decide)
  exact ⟨h.1, h.2.1, h.2.2.1⟩

/-! ## C8 — the shutdown coordinator -/

/-- C8: a `cleanup()` invocation that finds `isShuttingDown` already set
exits immediately with failure status 1 without invoking any handler;
otherwise every registered handler is attempted (the settled list has one
entry per handler), a throwing handler settles as its logged error, a
handler that outlives the 3000 ms race settles as the logged
`"Cleanup timeout"`, and the process exits with success status 0. -/
theorem c8_shutdown_coordinator (handlers : List HandlerOutcome) :
    (shutdownCleanup true handlers = ⟨[], 1⟩) ∧
    ((shutdownCleanup false handlers).settled.length = handlers.length) ∧
    ((shutdownCleanup false handlers).exitCode = 0) ∧
    (∀ i : Nat, ∀ hi : i < handlers.length,
      (shutdownCleanup false handlers).settled.getD i .ok =
        wrapHandler (handlers.getD i .completes)) := by
  refine ⟨rfl, by simp [shutdownCleanup], rfl, ?_⟩
  intro i hi
  simp [shutdownCleanup, List.getD, List.getElem?_map]
  rcases h : handlers[i]? with _ | v
  · simp [List.getElem?_eq_none_iff] at h
    omega
  · simp

/-- C8 (witness): three registered actions — one completing, one throwing
`"boom"`, one hanging past the timeout — are all attempted, settle as
logged completions, and the run exits with status 0; a reentrant call exits
with status 1 attempting nothing. -/
theorem c8_shutdown_coordinator_witness :
    (shutdownCleanup false [.completes, .throws "boom", .hangs] =
      ⟨[.ok, .caughtError "boom", .caughtError "Cleanup timeout"], 0⟩) ∧
    ((shutdownCleanup false
      [.completes, .throws "boom", .hangs]).settled.length = 3) ∧
    (shutdownCleanup true [.completes, .throws "boom", .hangs] = ⟨[], 1⟩) := by
  refine ⟨rfl, ?_, ?_⟩
  · exact (c8_shutdown_coordinator [.completes, .throws "boom", .hangs]).2.1
  · exact (c8_shutdown_coordinator [.completes, .throws "boom", .hangs]).1

/-! ## C9 — diagnostic endpoints across the HTTP bindings -/

/-- C9 (counterexample): the express app built by `startSSEMcpServer` (with
its default endpoint `/sse`) registers only `GET <endpoint>` and
`POST /messages`; a `GET /health` request matches neither route and falls
through to express's default 404 — not the 200 "OK" the claim requires of
every HTTP-based binding. -/
theorem c9_counterexample :
    sseAppRoute "/sse" "GET" "/health" = SseRouteTarget.default404 := rfl

/-- C9 (amended): the shared helper `createBaseHttpServer` short-circuits
`OPTIONS` to 204 and serves `GET /health` → 200 "OK" and `GET /ping` →
200 "pong" ahead of the transport-specific handler; but neither the
server-push nor the streaming-HTTP binding uses this helper: the SSE express
app leaves `/health` and `/ping` to the default 404 handler, answers
`OPTIONS` on its routed endpoint only through express's automatic
200-with-Allow response (not a 204 short-circuit) and sends `OPTIONS` on
unrouted paths to 404, and the streamable express app answers `OPTIONS` 204
only through its CORS middleware while `/health` and `/ping` likewise fall
through to 404. -/
theorem c9_amended (req : HttpRequest) (s : Nat) (b : String) :
    (req.method = "OPTIONS" → baseServerRoute req = .response 204 "") ∧
    (baseServerRoute ⟨"GET", some "/health"⟩ = .response 200 "OK") ∧
    (baseServerRoute ⟨"GET", some "/ping"⟩ = .response 200 "pong") ∧
    (req.method ≠ "OPTIONS" → handleCommonEndpoints req = .handled s b →
      baseServerRoute req = .response s b) ∧
    (sseAppRoute "/sse" "GET" "/ping" = .default404) ∧
    (sseAppRoute "/sse" "OPTIONS" "/sse" = .autoOptions "GET,HEAD") ∧
    (sseAppRoute "/sse" "OPTIONS" "/health" = .default404) ∧
    (streamableAppRoute "/mcp" "GET" "/health" = .default404) ∧
    (streamableAppRoute "/mcp" "GET" "/ping" = .default404) ∧
    (streamableAppRoute "/mcp" "OPTIONS" "/mcp" = .corsOptions204) := by
  refine ⟨?_, rfl, rfl, ?_, rfl, rfl, rfl, rfl, rfl, rfl⟩
  · intro h
    simp [baseServerRoute, h]
  · intro h hc
    simp [baseServerRoute, h, hc]

/-- C9 (witness): the amended theorem applied to the concrete preflight
request `OPTIONS /sse` against the shared helper and to the handled
`GET /health` case. -/
theorem c9_amended_witness :
    (baseServerRoute ⟨"OPTIONS", some "/sse"⟩ = .response 204 "") ∧
    (baseServerRoute ⟨"GET", some "/health"⟩ = .response 200 "OK") := by
  have h := c9_amended ⟨"OPTIONS", some "/sse"⟩ 200 "OK"
  exact ⟨h.1 rfl, h.2.1⟩

/-! ## C10 — frame property of session removal -/

/-- C10: the close handler of one SSE connection deletes only its own
session id — the registry's mapping at every other id is unchanged, so
lookups for other live sessions still succeed afterwards. -/
theorem c10_close_preserves_other_sessions (r : Registry) (t : SSETransport)
    (k : String) (h : k ≠ t.sessionId) :
    (sseOnClose r t).lookup k = r.lookup k := by
  simp [sseOnClose, Registry.remove, Registry.lookup, h]

/-- C10 (witness): closing the `"sess-1"` connection leaves the other live
session `"sess-2"` in the record, still found by lookup. -/
theorem c10_close_preserves_other_sessions_witness :
    (sseOnClose
      (sseConnect (sseConnect Registry.emptyR ⟨"sess-1", 0⟩) ⟨"sess-2", 1⟩)
      ⟨"sess-1", 0⟩).lookup "sess-2" = some ⟨"sess-2", 1⟩ := by
  have h := c10_close_preserves_other_sessions
    (sseConnect (sseConnect Registry.emptyR ⟨"sess-1", 0⟩) ⟨"sess-2", 1⟩)
    ⟨"sess-1", 0⟩ "sess-2" (by decide)
  rw [h]
  rfl

end McpMermaid
